import Mathlib

/-!
Verification of the orchestration core of `src/ephemeris/run_data_managers.py`
(the `run-data-managers` tool) against its natural-language specification.

The Python source is shallowly embedded below:

* remote dataset states (`gi.datasets.show_dataset(...)['state']`) are a small
  inductive type `DState`; anything other than the literal strings `'ok'` and
  `'error'` behaves like a pending state, so a single `pending` constructor
  stands for all of them;
* a dispatched job is identified by the `hid` of its first output
  (`job['outputs'][0]['hid']`), modelled as a `Nat`; the dataset id used for
  polling maps to the same handle;
* the remote instance is a parameter: a schedule function gives the state of
  each dataset at each poll cycle, and a table oracle gives the content of
  each tool-data table;
* Python exceptions are modelled with `Except`/error results; a Python `while`
  loop is modelled with explicit fuel (the loop in `wait` need not terminate:
  fuel exhaustion is a distinguished outcome, not an exception of the code).
-/

namespace Ephemeris

/-- Remote dataset state as observed by polling.  The source compares the
state string against `'ok'` and `'error'`; every other string keeps the job
in the working set, which `pending` stands for. -/
inductive DState
  | ok
  | error
  | pending
deriving DecidableEq

/-- One poll cycle of `wait` (source lines 48-63): iterate over the current
`job_list`, appending jobs whose state is `'ok'` to `finished_jobs` and jobs
whose state is `'error'` to **both** `failed_jobs` and `finished_jobs`
(lines 57, 60-61; the dangling `else` on line 62 only logs).  Returns
`(finished_jobs, failed_jobs)` of this cycle. -/
def cycleClassify (st : Nat → DState) (job_list : List Nat) : List Nat × List Nat :=
  job_list.foldl
    (fun acc job =>
      match st job with
      | DState.ok => (acc.1 ++ [job], acc.2)
      | DState.error => (acc.1 ++ [job], acc.2 ++ [job])
      | DState.pending => acc)
    ([], [])

/-- Python `list.remove`: delete the first occurrence (no-op when absent;
in `wait` every removed job is present, so the `ValueError` case is
unreachable). -/
def removeFirst (x : Nat) : List Nat → List Nat
  | [] => []
  | y :: ys => if y = x then ys else y :: removeFirst x ys

/-- Outcome of `wait` (source lines 40-70).  `returned` carries the
`finished_jobs`/`failed_jobs` bindings of the **final** loop iteration, which
is all the source returns.  `nameError` models the `NameError` raised by
`return finished_jobs, failed_jobs` when the loop body never ran (the two
locals are only bound inside the `while` body).  `outOfFuel` is a model
artifact standing for a run of the loop longer than the supplied fuel. -/
inductive WaitResult
  | returned (finished_jobs failed_jobs : List Nat)
  | nameError
  | outOfFuel
deriving DecidableEq

/-- Result of `wait` together with the number of executed poll cycles and the
number of `time.sleep(30)` calls performed. -/
structure WaitOut where
  result : WaitResult
  cycles : Nat
  sleeps : Nat
deriving DecidableEq

/-- The `while bool(job_list)` loop of `wait`: classify the current list,
remove each job of this cycle's `finished_jobs` from `job_list` (lines 65-66),
sleep only when the list is still non-empty (lines 68-69), and loop.  `last`
holds the most recent `(finished_jobs, failed_jobs)` binding, `none` while the
body has not run. -/
def waitAux (sched : Nat → Nat → DState) (fuel cycle sleeps : Nat)
    (job_list : List Nat) (last : Option (List Nat × List Nat)) : WaitOut :=
  if job_list.isEmpty then
    match last with
    | Option.none => ⟨WaitResult.nameError, cycle, sleeps⟩
    | Option.some (f, fl) => ⟨WaitResult.returned f fl, cycle, sleeps⟩
  else
    match fuel with
    | 0 => ⟨WaitResult.outOfFuel, cycle, sleeps⟩
    | fuel' + 1 =>
      let c := cycleClassify (sched cycle) job_list
      let job_list' := c.1.foldl (fun l j => removeFirst j l) job_list
      let sleeps' := if job_list'.isEmpty then sleeps else sleeps + 1
      waitAux sched fuel' (cycle + 1) sleeps' job_list' (Option.some c)

/-- `wait(gi, job_list)` of the source, with the remote dataset states given
by `sched cycle job`. -/
def wait (sched : Nat → Nat → DState) (fuel : Nat) (job_list : List Nat) : WaitOut :=
  waitAux sched fuel 0 0 job_list Option.none

/-- The polling-convergence scenario of the spec: three handles 1, 2, 3 whose
dataset states are `[pending, pending, ok]` at cycle 0 and `[ok, error, ok]`
from cycle 1 on. -/
def schedConverge : Nat → Nat → DState
  | 0, 3 => DState.ok
  | 0, _ => DState.pending
  | _, 1 => DState.ok
  | _, 2 => DState.error
  | _, 3 => DState.ok
  | _, _ => DState.pending

/-- C1 (counterexample): in the `[pending, pending, ok]` → `[ok, error, ok]`
scenario, `wait` returns the bindings of the final poll cycle only:
`finished_jobs = [1, 2]` and `failed_jobs = [2]`.  Handle 3 — classified `ok`
in cycle 0 — is absent from the returned succeeded list, and handle 2 — the
`error` handle — appears in both returned lists, so the claimed
"succeeded = exactly the ok handles, lists disjoint" is false. -/
theorem wait_converge_counterexample :
    wait schedConverge 10 [1, 2, 3] =
      { result := WaitResult.returned [1, 2] [2], cycles := 2, sleeps := 1 } ∧
    schedConverge 0 3 = DState.ok ∧ schedConverge 1 2 = DState.error ∧
    (3 : Nat) ∉ ([1, 2] : List Nat) ∧
    (2 : Nat) ∈ ([1, 2] : List Nat) ∧ (2 : Nat) ∈ ([2] : List Nat) := by
  exact ⟨rfl, rfl, rfl, by decide, by decide, by decide⟩

/-- C1 (amended): in the `[pending, pending, ok]` → `[ok, error, ok]` scenario
`wait` runs exactly 2 poll cycles with exactly one sleep interval and returns
the final cycle's lists: succeeded `[1, 2]` (the two handles classified in
cycle 1, including the errored one, which the source also appends to
`finished_jobs`) and failed `[2]`; the handle that reached `ok` in the first
cycle is dropped from the returned lists. -/
theorem wait_converge_final_cycle :
    wait schedConverge 10 [1, 2, 3] =
      { result := WaitResult.returned [1, 2] [2], cycles := 2, sleeps := 1 } := rfl

/-- C2: calling `wait` with an empty `job_list` performs no poll cycle and no
sleep, but does **not** return `([], [])`: the `while` body never runs, so
`return finished_jobs, failed_jobs` references unbound locals and raises
`NameError` (modelled by `WaitResult.nameError`). -/
theorem wait_empty_name_error :
    wait (fun _ _ => DState.pending) 5 [] =
      { result := WaitResult.nameError, cycles := 0, sleeps := 0 } := rfl

/-! ## Idempotency checker -/

/-- Errors an orchestration run can raise.  `tableMissing` and
`columnMissing` come from `data_table_entry_exists` (note: in the source the
missing-column case is an uncaught `ValueError` from `list.index`, since the
handler catches `IndexError`; either way the exception propagates, which is
all this model tracks).  `rowIndexError` is the `IndexError` of
`field[column_index]` on a too-short row.  The remaining constructors are
introduced with the orchestrator below. -/
inductive RunError
  | tableMissing (table : String)
  | columnMissing (column table : String)
  | rowIndexError
  | policyAbort
  | nameError
  | outOfFuel
  | templateError (e : String)
  | jsonError (e : String)
  | typeError
deriving DecidableEq

/-- A remote tool-data table as returned by `show_data_table`: an ordered
column-name list and the rows (`fields`). -/
structure DataTable where
  columns : List String
  fields : List (List String)
deriving DecidableEq

/-- The row scan of `data_table_entry_exists` (source lines 85-88): return
`True` on the first row whose cell in `column_index` equals `entry`, `False`
after the loop; a row shorter than `column_index` raises `IndexError`. -/
def findEntryInColumn (entry : String) (column_index : Nat) :
    List (List String) → Except RunError Bool
  | [] => Except.ok false
  | row :: rest =>
    match row.get? column_index with
    | Option.none => Except.error RunError.rowIndexError
    | Option.some cell =>
      if cell = entry then Except.ok true else findEntryInColumn entry column_index rest

/-- `data_table_entry_exists(tool_data_client, data_table_name, entry, column)`
(source lines 73-88).  The tool-data client is a table oracle; an unknown
table name raises (`'Table "%s" does not exist'`), a column name absent from
`columns` raises (uncaught `ValueError` of `list.index`), otherwise the rows
are scanned. -/
def data_table_entry_exists (tables : String → Option DataTable)
    (data_table_name : String) (entry : String) (column : String) :
    Except RunError Bool :=
  match tables data_table_name with
  | Option.none => Except.error (RunError.tableMissing data_table_name)
  | Option.some t =>
    match t.columns.findIdx? (fun c => c == column) with
    | Option.none => Except.error (RunError.columnMissing column data_table_name)
    | Option.some column_index => findEntryInColumn entry column_index t.fields

/-- The key-precedence scan shared by `get_name_from_inputs` and
`get_value_from_inputs`: return `input_dict.get(key)` for the first key of
`possible_keys` present in the dict, `False` (modelled `none`) when no key is
present. -/
def getFirstKey (possible_keys : List String) (input_dict : List (String × String)) :
    Option String :=
  match possible_keys with
  | [] => Option.none
  | k :: ks =>
    match input_dict.lookup k with
    | Option.some v => Option.some v
    | Option.none => getFirstKey ks input_dict

/-- `get_name_from_inputs` (source lines 91-97): `possible_keys = ['name',
'sequence_name']` in order of importance. -/
def get_name_from_inputs (input_dict : List (String × String)) : Option String :=
  getFirstKey ["name", "sequence_name"] input_dict

/-- `get_value_from_inputs` (source lines 100-106): `possible_keys = ['value',
'sequence_id', 'dbkey']` in order of importance. -/
def get_value_from_inputs (input_dict : List (String × String)) : Option String :=
  getFirstKey ["value", "sequence_id", "dbkey"] input_dict

/-- Python truthiness of a candidate entry: `False` (here `none`) and the
empty string are falsy, every other string is truthy. -/
def pyTruthy : Option String → Bool
  | Option.none => false
  | Option.some s => !(s == "")

/-- The per-table loop of `input_entries_exist_in_data_tables` (source lines
121-129): for each table, when the value candidate is truthy its absence from
the `value` column returns `False`, then when the name candidate is truthy its
absence from the `name` column returns `False`; after all tables pass, return
`True`.  Exceptions of `data_table_entry_exists` propagate. -/
def checkDataTables (tables : String → Option DataTable)
    (value_entry name_entry : Option String) : List String → Except RunError Bool
  | [] => Except.ok true
  | data_table :: rest =>
    match
      (if pyTruthy value_entry then
        data_table_entry_exists tables data_table (value_entry.getD "") "value"
      else Except.ok true) with
    | Except.error e => Except.error e
    | Except.ok false => Except.ok false
    | Except.ok true =>
      match
        (if pyTruthy name_entry then
          data_table_entry_exists tables data_table (name_entry.getD "") "name"
        else Except.ok true) with
      | Except.error e => Except.error e
      | Except.ok false => Except.ok false
      | Except.ok true => checkDataTables tables value_entry name_entry rest

/-- `input_entries_exist_in_data_tables(tool_data_client, data_tables,
input_dict)` (source lines 109-129): derive the two candidates, return `False`
when both are falsy (line 116), otherwise check every table. -/
def input_entries_exist_in_data_tables (tables : String → Option DataTable)
    (data_tables : List String) (input_dict : List (String × String)) :
    Except RunError Bool :=
  let value_entry := get_value_from_inputs input_dict
  let name_entry := get_name_from_inputs input_dict
  if !pyTruthy value_entry && !pyTruthy name_entry then Except.ok false
  else checkDataTables tables value_entry name_entry data_tables

/-- C5: when the input dict contains none of `name`, `sequence_name`,
`value`, `sequence_id`, `dbkey`, the idempotency check returns `False` for
every table oracle and every table list, so the job is always dispatched. -/
theorem no_identifying_inputs_always_runs (tables : String → Option DataTable)
    (data_tables : List String) (input_dict : List (String × String))
    (h1 : input_dict.lookup "name" = Option.none)
    (h2 : input_dict.lookup "sequence_name" = Option.none)
    (h3 : input_dict.lookup "value" = Option.none)
    (h4 : input_dict.lookup "sequence_id" = Option.none)
    (h5 : input_dict.lookup "dbkey" = Option.none) :
    input_entries_exist_in_data_tables tables data_tables input_dict = Except.ok false := by
  simp [input_entries_exist_in_data_tables, get_name_from_inputs, get_value_from_inputs,
    getFirstKey, h1, h2, h3, h4, h5, pyTruthy]

/-- C5 witness: a dict with only an unrelated key is never considered
already-run, even against an oracle with no tables at all. -/
theorem no_identifying_inputs_always_runs_witness :
    input_entries_exist_in_data_tables (fun _ => Option.none) ["tbl"] [("other", "x")] =
      Except.ok false :=
  no_identifying_inputs_always_runs _ _ _ rfl rfl rfl rfl rfl

/-- C6: candidate-key precedence is strict.  If `name` is present its value is
the name candidate regardless of `sequence_name`; if `value` is present its
value is the value candidate regardless of `sequence_id`/`dbkey`; and with
`value` absent, a present `sequence_id` wins over `dbkey`. -/
theorem candidate_key_precedence (input_dict : List (String × String)) :
    (∀ v, input_dict.lookup "name" = Option.some v →
      get_name_from_inputs input_dict = Option.some v) ∧
    (∀ v, input_dict.lookup "value" = Option.some v →
      get_value_from_inputs input_dict = Option.some v) ∧
    (∀ v, input_dict.lookup "value" = Option.none →
      input_dict.lookup "sequence_id" = Option.some v →
      get_value_from_inputs input_dict = Option.some v) := by
  refine ⟨fun v h => ?_, fun v h => ?_, fun v h h' => ?_⟩
  · simp [get_name_from_inputs, getFirstKey, h]
  · simp [get_value_from_inputs, getFirstKey, h]
  · simp [get_value_from_inputs, getFirstKey, h, h']

/-- C6 witness: with both keys of each chain present, only the
highest-priority key's value is returned. -/
theorem candidate_key_precedence_witness :
    get_name_from_inputs [("sequence_name", "B"), ("name", "A")] = Option.some "A" ∧
    get_value_from_inputs [("dbkey", "D"), ("value", "V"), ("sequence_id", "S")] =
      Option.some "V" ∧
    get_value_from_inputs [("dbkey", "D"), ("sequence_id", "S")] = Option.some "S" :=
  ⟨(candidate_key_precedence _).1 "A" rfl,
   (candidate_key_precedence _).2.1 "V" rfl,
   (candidate_key_precedence _).2.2 "S" rfl rfl⟩

/-- C10: a candidate bound to the empty string is falsy.  If the
highest-priority present key of a chain maps to `""`, that chain's candidate
is `""` (the lower-priority keys are never consulted) and is treated as
absent; when both candidates are falsy the check returns `False` for every
table oracle — in particular no table is ever queried, since even an oracle
that would raise on any lookup yields `Except.ok false`. -/
theorem empty_string_candidate_is_falsy (tables : String → Option DataTable)
    (data_tables : List String) (input_dict : List (String × String)) :
    (input_dict.lookup "name" = Option.some "" →
      get_name_from_inputs input_dict = Option.some "" ∧
      pyTruthy (get_name_from_inputs input_dict) = false) ∧
    (input_dict.lookup "value" = Option.some "" →
      get_value_from_inputs input_dict = Option.some "" ∧
      pyTruthy (get_value_from_inputs input_dict) = false) ∧
    (pyTruthy (get_value_from_inputs input_dict) = false →
      pyTruthy (get_name_from_inputs input_dict) = false →
      input_entries_exist_in_data_tables tables data_tables input_dict = Except.ok false) := by
  refine ⟨fun h => ?_, fun h => ?_, fun hv hn => ?_⟩
  · constructor
    · simp [get_name_from_inputs, getFirstKey, h]
    · simp [get_name_from_inputs, getFirstKey, h, pyTruthy]
  · constructor
    · simp [get_value_from_inputs, getFirstKey, h]
    · simp [get_value_from_inputs, getFirstKey, h, pyTruthy]
  · simp [input_entries_exist_in_data_tables, hv, hn]

/-- C10 witness: the spec's example `{name: "", sequence_name: "x"}` produces
the falsy name candidate `""` (ignoring `sequence_name`), and the check
returns `False` against an oracle that would raise on any table access. -/
theorem empty_string_candidate_is_falsy_witness :
    get_name_from_inputs [("name", ""), ("sequence_name", "x")] = Option.some "" ∧
    input_entries_exist_in_data_tables (fun _ => Option.none) ["tbl"]
      [("name", ""), ("sequence_name", "x")] = Except.ok false :=
  ⟨((empty_string_candidate_is_falsy (fun _ => Option.none) ["tbl"]
      [("name", ""), ("sequence_name", "x")]).1 rfl).1,
   (empty_string_candidate_is_falsy (fun _ => Option.none) ["tbl"]
      [("name", ""), ("sequence_name", "x")]).2.2 rfl rfl⟩

/-! ## Template resolver

The source renders templates with `jinja2.Template(value).render(...)` using
jinja2's **default** environment.  The templates used by this tool are plain
text with `\x7b\x7b name \x7d\x7d` interpolations, which the model below
reproduces faithfully for that subset:

* a placeholder whose (whitespace-trimmed) name is bound in the render
  context is replaced by the bound string;
* a placeholder whose name is unbound renders as the **empty string** — the
  default `jinja2.Undefined` prints as `''` and raises no error (only
  `StrictUndefined`, which the source does not opt into, would raise);
* an unterminated placeholder is a `TemplateSyntaxError`, modelled as
  `Except.error`.
-/

/-- The `\x7b` character (kept out of character literals for hygiene). -/
def lbrace : Char := Char.ofNat 123

/-- The `\x7d` character. -/
def rbrace : Char := Char.ofNat 125

/-- Scan to the closing `\x7d\x7d` of a placeholder: returns the name
characters and the remainder after the closer, or `none` when the placeholder
is unterminated. -/
def takeUntilClose : List Char → Option (List Char × List Char)
  | [] => Option.none
  | c :: rest =>
    if c = rbrace then
      match rest with
      | c2 :: rest2 =>
        if c2 = rbrace then Option.some ([], rest2)
        else (takeUntilClose rest).map (fun p => (c :: p.1, p.2))
      | [] => Option.none
    else (takeUntilClose rest).map (fun p => (c :: p.1, p.2))

/-- Drop spaces from both ends of a name (jinja allows `\x7b\x7b item \x7d\x7d`). -/
def trimSpaces (cs : List Char) : List Char :=
  ((cs.dropWhile (fun c => c = ' ')).reverse.dropWhile (fun c => c = ' ')).reverse

/-- Character-level template rendering with fuel (the fuel only bounds the
recursion depth; `renderTemplate` supplies enough for any input, so the
`"fuel"` branch is unreachable from it). -/
def renderChars (ctx : List (String × String)) : Nat → List Char → Except String (List Char)
  | 0, _ => Except.error "fuel"
  | _, [] => Except.ok []
  | fuel + 1, c :: rest =>
    if c = lbrace then
      match rest with
      | c2 :: rest2 =>
        if c2 = lbrace then
          match takeUntilClose rest2 with
          | Option.none => Except.error "unterminated placeholder"
          | Option.some (nameChars, rest3) =>
            let bound := (ctx.lookup (String.mk (trimSpaces nameChars))).getD ""
            match renderChars ctx fuel rest3 with
            | Except.error e => Except.error e
            | Except.ok out => Except.ok (bound.data ++ out)
        else
          match renderChars ctx fuel rest with
          | Except.error e => Except.error e
          | Except.ok out => Except.ok (c :: out)
      | [] => Except.ok [c]
    else
      match renderChars ctx fuel rest with
      | Except.error e => Except.error e
      | Except.ok out => Except.ok (c :: out)

/-- `jinja2.Template(template).render(ctx)` with the default environment, for
the plain-interpolation templates this tool uses. -/
def renderTemplate (ctx : List (String × String)) (template : String) :
    Except String String :=
  match renderChars ctx (template.length + 1) template.data with
  | Except.error e => Except.error e
  | Except.ok out => Except.ok (String.mk out)

/-- C7 (counterexample): rendering a template that references the key
`missing`, not bound in the context `[("item", "hg19")]`, produces the value
`"_index"` (the unbound placeholder renders as the empty string) — it does
not raise a resolution error. -/
theorem template_undefined_key_counterexample :
    renderTemplate [("item", "hg19")] "\x7b\x7bmissing\x7d\x7d_index" =
      Except.ok "_index" := rfl

/-- C7 (amended): `\x7b\x7bitem\x7d\x7d_index` rendered against
`item = "hg19"` yields `"hg19_index"`; a template referencing an unbound key
renders that placeholder as the empty string (jinja2's default lenient
`Undefined`) instead of raising; only malformed template syntax (an
unterminated placeholder) raises an error. -/
theorem template_resolution :
    renderTemplate [("item", "hg19")] "\x7b\x7bitem\x7d\x7d_index" =
      Except.ok "hg19_index" ∧
    renderTemplate [("item", "hg19")] "\x7b\x7bmissing\x7d\x7d_index" =
      Except.ok "_index" ∧
    renderTemplate [("item", "hg19")] "\x7b\x7bitem" =
      Except.error "unterminated placeholder" :=
  ⟨rfl, rfl, rfl⟩

/-! ## Python values, JSON round trip, `parse_items` -/

/-- A Python/YAML/JSON value as far as this tool manipulates one. -/
inductive PyVal
  | str (s : String)
  | int (n : Int)
  | bool (b : Bool)
  | null
  | list (l : List PyVal)
  | dict (l : List (String × PyVal))

/-- Python truthiness (`bool(...)`) of a value. -/
def pyBool : PyVal → Bool
  | PyVal.str s => !(s == "")
  | PyVal.int n => !(n == 0)
  | PyVal.bool b => b
  | PyVal.null => false
  | PyVal.list l => !l.isEmpty
  | PyVal.dict l => !l.isEmpty

/-- JSON string escaping for `json.dumps` (the escapes this tool's data can
contain; `\u` escapes for other control characters are not modelled). -/
def escapeJsonChar (c : Char) : List Char :=
  if c = '"' then ['\\', '"']
  else if c = '\\' then ['\\', '\\']
  else if c = '\n' then ['\\', 'n']
  else if c = '\t' then ['\\', 't']
  else if c = '\r' then ['\\', 'r']
  else [c]

/-- Escape a whole string. -/
def escapeJson (s : String) : String :=
  String.mk (s.data.foldr (fun c acc => escapeJsonChar c ++ acc) [])

mutual

/-- `json.dumps` with Python's default separators `", "` and `": "`. -/
def jsonDumps : PyVal → String
  | PyVal.str s => "\"" ++ escapeJson s ++ "\""
  | PyVal.int n => toString n
  | PyVal.bool true => "true"
  | PyVal.bool false => "false"
  | PyVal.null => "null"
  | PyVal.list l => "[" ++ jsonDumpsList l ++ "]"
  | PyVal.dict l => "\x7b" ++ jsonDumpsDict l ++ "\x7d"

/-- Comma-joined list elements. -/
def jsonDumpsList : List PyVal → String
  | [] => ""
  | [v] => jsonDumps v
  | v :: rest => jsonDumps v ++ ", " ++ jsonDumpsList rest

/-- Comma-joined `"key": value` members. -/
def jsonDumpsDict : List (String × PyVal) → String
  | [] => ""
  | [(k, v)] => "\"" ++ escapeJson k ++ "\": " ++ jsonDumps v
  | (k, v) :: rest =>
    "\"" ++ escapeJson k ++ "\": " ++ jsonDumps v ++ ", " ++ jsonDumpsDict rest

end

/-- Skip JSON whitespace. -/
def skipWs : List Char → List Char
  | [] => []
  | c :: rest =>
    if c = ' ' || c = '\n' || c = '\t' || c = '\r' then skipWs rest else c :: rest

/-- Parse the body of a JSON string (after the opening quote), decoding the
escapes `escapeJsonChar` produces plus `\/`. -/
def parseJsonString : Nat → List Char → Option (String × List Char)
  | 0, _ => Option.none
  | _, [] => Option.none
  | fuel + 1, c :: rest =>
    if c = '"' then Option.some ("", rest)
    else if c = '\\' then
      match rest with
      | [] => Option.none
      | e :: rest2 =>
        let dec : Option Char :=
          if e = '"' then Option.some '"'
          else if e = '\\' then Option.some '\\'
          else if e = '/' then Option.some '/'
          else if e = 'n' then Option.some '\n'
          else if e = 't' then Option.some '\t'
          else if e = 'r' then Option.some '\r'
          else Option.none
        match dec with
        | Option.none => Option.none
        | Option.some ch =>
          (parseJsonString fuel rest2).map (fun p => (String.mk (ch :: p.1.data), p.2))
    else (parseJsonString fuel rest).map (fun p => (String.mk (c :: p.1.data), p.2))

/-- Take a maximal run of decimal digits. -/
def takeDigits : List Char → List Char × List Char
  | [] => ([], [])
  | c :: rest =>
    if c.isDigit then
      let p := takeDigits rest
      (c :: p.1, p.2)
    else ([], c :: rest)

/-- Digits to a natural number. -/
def digitsToNat (ds : List Char) : Nat :=
  ds.foldl (fun acc c => acc * 10 + (c.toNat - 48)) 0

/-- Parse a JSON integer (floats are not modelled; this tool's configs hold
strings and lists of strings). -/
def parseJsonInt (cs : List Char) : Option (Int × List Char) :=
  match cs with
  | '-' :: rest =>
    match takeDigits rest with
    | ([], _) => Option.none
    | (ds, r) => Option.some (-(digitsToNat ds : Int), r)
  | _ =>
    match takeDigits cs with
    | ([], _) => Option.none
    | (ds, r) => Option.some ((digitsToNat ds : Int), r)

mutual

/-- Recursive-descent JSON value parser (fueled; `jsonLoads` supplies ample
fuel). -/
def parseJsonVal : Nat → List Char → Option (PyVal × List Char)
  | 0, _ => Option.none
  | fuel + 1, cs =>
    match skipWs cs with
    | [] => Option.none
    | 't' :: 'r' :: 'u' :: 'e' :: r => Option.some (PyVal.bool true, r)
    | 'f' :: 'a' :: 'l' :: 's' :: 'e' :: r => Option.some (PyVal.bool false, r)
    | 'n' :: 'u' :: 'l' :: 'l' :: r => Option.some (PyVal.null, r)
    | '"' :: r =>
      (parseJsonString (fuel + 1) r).map (fun p => (PyVal.str p.1, p.2))
    | '[' :: r =>
      match skipWs r with
      | ']' :: r2 => Option.some (PyVal.list [], r2)
      | r2 => (parseJsonElems fuel r2).map (fun p => (PyVal.list p.1, p.2))
    | c :: r =>
      if c = lbrace then
        match skipWs r with
        | c2 :: r2 =>
          if c2 = rbrace then Option.some (PyVal.dict [], r2)
          else (parseJsonMembers fuel (c2 :: r2)).map (fun p => (PyVal.dict p.1, p.2))
        | [] => Option.none
      else parseJsonInt (c :: r) |>.map (fun p => (PyVal.int p.1, p.2))

/-- One-or-more comma-separated array elements, consuming the closing `]`. -/
def parseJsonElems : Nat → List Char → Option (List PyVal × List Char)
  | 0, _ => Option.none
  | fuel + 1, cs =>
    match parseJsonVal fuel cs with
    | Option.none => Option.none
    | Option.some (v, r) =>
      match skipWs r with
      | ',' :: r2 => (parseJsonElems fuel r2).map (fun p => (v :: p.1, p.2))
      | ']' :: r2 => Option.some ([v], r2)
      | _ => Option.none

/-- One-or-more comma-separated object members, consuming the closer. -/
def parseJsonMembers : Nat → List Char → Option (List (String × PyVal) × List Char)
  | 0, _ => Option.none
  | fuel + 1, cs =>
    match skipWs cs with
    | '"' :: r =>
      match parseJsonString (fuel + 1) r with
      | Option.none => Option.none
      | Option.some (k, r2) =>
        match skipWs r2 with
        | ':' :: r3 =>
          match parseJsonVal fuel r3 with
          | Option.none => Option.none
          | Option.some (v, r4) =>
            match skipWs r4 with
            | ',' :: r5 => (parseJsonMembers fuel r5).map (fun p => ((k, v) :: p.1, p.2))
            | c :: r5 =>
              if c = rbrace then Option.some ([(k, v)], r5) else Option.none
            | [] => Option.none
        | _ => Option.none
    | _ => Option.none

end

/-- `json.loads`: parse one value and require only whitespace to follow. -/
def jsonLoads (s : String) : Except String PyVal :=
  match parseJsonVal (2 * s.length + 2) s.data with
  | Option.none => Except.error "invalid json"
  | Option.some (v, r) =>
    if (skipWs r).isEmpty then Except.ok v else Except.error "extra data"

/-- Python `str.strip('"')`: drop every leading and trailing `"` character. -/
def pyStripQuotes (s : String) : String :=
  String.mk (((s.data.dropWhile (fun c => c = '"')).reverse.dropWhile
    (fun c => c = '"')).reverse)

/-- `parse_items(items, genomes)` (source lines 132-139): when `genomes` is
truthy, render `json.dumps(items)` as a template with
`genomes=json.dumps(genomes)`, strip surrounding `"`, and `json.loads` the
result; when `genomes` is falsy, return `items` untouched. -/
def parse_items (items genomes : PyVal) : Except RunError PyVal :=
  if pyBool genomes then
    match renderTemplate [("genomes", jsonDumps genomes)] (jsonDumps items) with
    | Except.error e => Except.error (RunError.templateError e)
    | Except.ok rendered =>
      match jsonLoads (pyStripQuotes rendered) with
      | Except.error e => Except.error (RunError.jsonError e)
      | Except.ok v => Except.ok v
  else Except.ok items

/-- C8: `parse_items` is the identity whenever `genomes` is falsy (absent
reference keys are loaded as `''`): for every `items` value the raw value is
returned unchanged, with no template rendering and no JSON round trip. -/
theorem parse_items_identity_on_falsy_genomes (items genomes : PyVal)
    (h : pyBool genomes = false) :
    parse_items items genomes = Except.ok items := by
  simp [parse_items, h]

/-- C8 witness: with `genomes = ''` (the default for a config without a
`genomes` section) a concrete items list passes through verbatim. -/
theorem parse_items_identity_on_falsy_genomes_witness :
    parse_items (PyVal.list [PyVal.str "hg19", PyVal.str "mm10"]) (PyVal.str "") =
      Except.ok (PyVal.list [PyVal.str "hg19", PyVal.str "mm10"]) :=
  parse_items_identity_on_falsy_genomes _ _ rfl

/-! ## Step orchestrator (`run_dm`, source lines 142-199)

The connection boilerplate (lines 143-153) and the YAML load (line 159) sit
outside the orchestration core: the model starts from the loaded config.
Note that the `gi.genomes.get_genomes()` result of line 150 is discarded —
line 160 rebinds `genomes` to `conf.get('genomes', '')`.

Job handles are the `hid`s of the first output of each dispatched job,
assigned 1, 2, 3, … in dispatch order across the whole run.  The remote
dataset states during each step's `wait` come from a schedule indexed by
(step index, poll cycle, hid); `wait`'s cycles restart at 0 for every step.
-/

/-- One `data_managers` entry of the config: `id`, the `params` list (each a
single-entry dict `key: raw template`), the optional `items` field
(`dm.get('items', [''])`), and `data_table_reload` (`dm.get(..., [])`
already applied). -/
structure DMConf where
  id : String
  params : List (String × String)
  items : Option PyVal
  data_table_reload : List String

/-- The configuration a run consumes: the two CLI flags, the config's
`genomes` value (`conf.get('genomes', '')`), and the `data_managers` list. -/
structure RunConfig where
  overwrite : Bool
  ignore_errors : Bool
  genomes : PyVal
  data_managers : List DMConf

/-- Mutable run state of `run_dm`: the next `hid` the remote instance will
assign, the `all_finished_jobs` and `all_failed_jobs` accumulators, the
`number_skipped_jobs` counter, and — as pure ghost instrumentation that no
control flow reads — the `(step index, hid)` of every dispatched job. -/
structure RunSt where
  nextHid : Nat
  all_finished : List Nat
  all_failed : List Nat
  number_skipped_jobs : Nat
  dispatched : List (Nat × Nat)
deriving DecidableEq

/-- The initial run state: no jobs yet, first dispatch gets hid 1. -/
def initSt : RunSt := ⟨1, [], [], 0, []⟩

/-- The string jinja substitutes for the current item (`str(item)`); every
configuration this development evaluates uses string items, for which this is
exact. -/
def pyStr : PyVal → String
  | PyVal.str s => s
  | v => jsonDumps v

/-- Python `dict.update(\x7bkey: value\x7d)` on an association list built from
the empty dict: replace the binding when the key is present, append
otherwise. -/
def dictUpdate (d : List (String × String)) (k v : String) : List (String × String) :=
  if (d.lookup k).isSome then d.map (fun p => if p.1 == k then (k, v) else p)
  else d ++ [(k, v)]

/-- The parameter loop of `run_dm` (source lines 170-174): render each raw
parameter value with `item=item` and build the `inputs` dict.  A
`TemplateSyntaxError` propagates. -/
def buildInputs (item : String) :
    List (String × String) → List (String × String) →
    Except RunError (List (String × String))
  | [], inputs => Except.ok inputs
  | (key, rawValue) :: rest, inputs =>
    match renderTemplate [("item", item)] rawValue with
    | Except.error e => Except.error (RunError.templateError e)
    | Except.ok rendered => buildInputs item rest (dictUpdate inputs key rendered)

/-- The item loop of one step (source lines 164-185): for each item build the
inputs, run the idempotency check, and either bump `number_skipped_jobs`
(when the check is `True` **and** `--overwrite` is off) or dispatch the job,
appending its hid to `job_list`.  The check is the left operand of the
conjunction, so it is evaluated — including its remote table queries — before
`overwrite` is consulted, and any exception it raises aborts the run
regardless of `overwrite`.  Returns the updated state, the step's `job_list`,
and the first error if one was raised. -/
def processItems (tables : String → Option DataTable) (overwrite : Bool) (si : Nat)
    (dm : DMConf) : List String → RunSt → List Nat →
    RunSt × List Nat × Option RunError
  | [], st, job_list => (st, job_list, Option.none)
  | item :: rest, st, job_list =>
    match buildInputs item dm.params [] with
    | Except.error e => (st, job_list, Option.some e)
    | Except.ok inputs =>
      match input_entries_exist_in_data_tables tables dm.data_table_reload inputs with
      | Except.error e => (st, job_list, Option.some e)
      | Except.ok found =>
        if found && !overwrite then
          processItems tables overwrite si dm rest
            { st with number_skipped_jobs := st.number_skipped_jobs + 1 } job_list
        else
          processItems tables overwrite si dm rest
            { st with nextHid := st.nextHid + 1,
                      dispatched := st.dispatched ++ [(si, st.nextHid)] }
            (job_list ++ [st.nextHid])

/-- Result of one step: the state after the item loop, the
`finished_jobs`/`failed_jobs` pair `wait` returned for the step's batch, and
the error, if any, that aborted the step. -/
structure StepOut where
  st : RunSt
  finished_jobs : List Nat
  failed_jobs : List Nat
  err : Option RunError
deriving DecidableEq

/-- One iteration of the `for dm in conf.get('data_managers')` loop up to and
including the `wait` call (source lines 161-186): resolve the items list via
`parse_items` (a non-list `items` value would fail the `for item in items`
iteration, modelled `typeError`), run the item loop, then poll the batch. -/
def processStep (tables : String → Option DataTable)
    (sched : Nat → Nat → Nat → DState) (fuel : Nat) (overwrite : Bool)
    (genomes : PyVal) (si : Nat) (dm : DMConf) (st : RunSt) : StepOut :=
  match parse_items (dm.items.getD (PyVal.list [PyVal.str ""])) genomes with
  | Except.error e => ⟨st, [], [], Option.some e⟩
  | Except.ok (PyVal.list items) =>
    match processItems tables overwrite si dm (items.map pyStr) st [] with
    | (st1, _, Option.some e) => ⟨st1, [], [], Option.some e⟩
    | (st1, job_list, Option.none) =>
      match (wait (sched si) fuel job_list).result with
      | WaitResult.returned f fl => ⟨st1, f, fl, Option.none⟩
      | WaitResult.nameError => ⟨st1, [], [], Option.some RunError.nameError⟩
      | WaitResult.outOfFuel => ⟨st1, [], [], Option.some RunError.outOfFuel⟩
  | Except.ok _ => ⟨st, [], [], Option.some RunError.typeError⟩

/-- The step loop of `run_dm` with the failure policy (source lines 161-194):
after each step's `wait`, a non-empty `failed_jobs` with `--ignore_errors`
off raises (`'Not all jobs successfull! aborting...'`, modelled
`policyAbort`) **before** the accumulators absorb the step's lists; otherwise
the lists are appended to `all_finished_jobs`/`all_failed_jobs` and the next
step runs.  Returns the final state and the error that ended the run, if
any. -/
def processSteps (tables : String → Option DataTable)
    (sched : Nat → Nat → Nat → DState) (fuel : Nat)
    (overwrite ignore_errors : Bool) (genomes : PyVal) :
    List (Nat × DMConf) → RunSt → RunSt × Option RunError
  | [], st => (st, Option.none)
  | (si, dm) :: rest, st =>
    match processStep tables sched fuel overwrite genomes si dm st with
    | ⟨st1, _, _, Option.some e⟩ => (st1, Option.some e)
    | ⟨st1, f, fl, Option.none⟩ =>
      if !fl.isEmpty && !ignore_errors then (st1, Option.some RunError.policyAbort)
      else
        processSteps tables sched fuel overwrite ignore_errors genomes rest
          { st1 with all_finished := st1.all_finished ++ f,
                     all_failed := st1.all_failed ++ fl }

/-- `run_dm(args)` from the loaded config onward: iterate the data managers
in order from the initial state. -/
def run_dm (tables : String → Option DataTable)
    (sched : Nat → Nat → Nat → DState) (fuel : Nat) (cfg : RunConfig) :
    RunSt × Option RunError :=
  processSteps tables sched fuel cfg.overwrite cfg.ignore_errors cfg.genomes
    cfg.data_managers.enum initSt

/-- The `job_summary` dict built on success (source lines 195-199). -/
structure JobSummary where
  finished_jobs : Nat
  failed_jobs : Nat
  skipped_jobs : Nat
deriving DecidableEq

/-- Build the summary from the final state. -/
def job_summary (st : RunSt) : JobSummary :=
  ⟨st.all_finished.length, st.all_failed.length, st.number_skipped_jobs⟩

/-! ## Claims about the orchestrator -/

/-- A table oracle with no tables: any `show_data_table` call raises. -/
def noTables : String → Option DataTable := fun _ => Option.none

/-- A data manager with one parameter and no identifying input keys, no
`items` field (so the default `['']` single run) and no reload tables: its
idempotency check is `False` and it always dispatches exactly one job. -/
def dmSolo : DMConf := ⟨"dm0", [("p0", "x")], Option.none, []⟩

/-- A second such data manager, for a subsequent step. -/
def dmNext : DMConf := ⟨"dm1", [("p1", "y")], Option.none, []⟩

/-- A schedule under which every dataset is in `'error'` state at every poll
cycle of every step. -/
def schedAllError : Nat → Nat → Nat → DState := fun _ _ _ => DState.error

/-- C9: `--overwrite` does not bypass the idempotency check.  The check is
the left operand of the `and` on source line 178, so for an item whose inputs
make the check raise (missing table or column), `processItems` stops with
that error for **every** value of `overwrite` — the flag only discards the
check's boolean result.  Moreover any step error aborts the whole run: once
`processStep` reports an error, `processSteps` returns it without running
further steps. -/
theorem overwrite_still_checks (tables : String → Option DataTable) (ow : Bool)
    (si : Nat) (dm : DMConf) (item : String) (rest : List String) (st : RunSt)
    (job_list : List Nat) (inputs : List (String × String)) (e : RunError)
    (hb : buildInputs item dm.params [] = Except.ok inputs)
    (hc : input_entries_exist_in_data_tables tables dm.data_table_reload inputs =
      Except.error e) :
    processItems tables ow si dm (item :: rest) st job_list =
      (st, job_list, Option.some e) ∧
    ∀ (sched : Nat → Nat → Nat → DState) (fuel : Nat) (genomes : PyVal) (ig : Bool)
      (rest2 : List (Nat × DMConf)) (e' : RunError),
      (processStep tables sched fuel ow genomes si dm st).err = Option.some e' →
      processSteps tables sched fuel ow ig genomes ((si, dm) :: rest2) st =
        ((processStep tables sched fuel ow genomes si dm st).st, Option.some e') := by
  constructor
  · simp [processItems, hb, hc]
  · intro sched fuel genomes ig rest2 e' herr
    simp only [processSteps]
    cases ho : processStep tables sched fuel ow genomes si dm st with
    | mk st1 f fl err =>
      rw [ho] at herr
      simp only at herr
      subst herr
      rfl

/-- A data manager whose only parameter is an identifying key (`value`), with
a reload table the remote instance does not have: its idempotency check
raises the missing-table error. -/
def dmMissingTable : DMConf := ⟨"dm0", [("value", "v")], Option.none, ["tbl"]⟩

/-- C9 witness: with `--overwrite` on, the missing-table error of the
idempotency check still surfaces instead of the item being dispatched. -/
theorem overwrite_still_checks_witness :
    processItems noTables true 0 dmMissingTable [""] initSt [] =
      (initSt, [], Option.some (RunError.tableMissing "tbl")) :=
  (overwrite_still_checks noTables true 0 dmMissingTable "" [] initSt []
    [("value", "v")] (RunError.tableMissing "tbl") rfl rfl).1

/-- A first step dispatching two jobs (items `a`, `b`), followed by a second
step dispatching one. -/
def dmTwoItems : DMConf :=
  ⟨"dm0", [("p0", "x")], Option.some (PyVal.list [PyVal.str "a", PyVal.str "b"]),
    []⟩

/-- A schedule where step 0's first job (hid 1) is in `'error'` state at poll
cycle 0 while the second job (hid 2) is still pending, and every dataset is
`'ok'` from cycle 1 on (and in every later step). -/
def schedEarlyError : Nat → Nat → Nat → DState
  | 0, 0, 1 => DState.error
  | 0, 0, _ => DState.pending
  | _, _, _ => DState.ok

/-- Two steps, failure policy strict (`--ignore_errors` off), no overwrite. -/
def cfgEarlyError : RunConfig := ⟨false, false, PyVal.str "", [dmTwoItems, dmNext]⟩

/-- C4 (counterexample): step 0's batch contains a failed job — hid 1 is in
`'error'` state at cycle 0 — and `--ignore_errors` is off, yet the run does
**not** abort: the job errored in a non-final poll cycle, `wait`'s final
cycle returned `failed_jobs = []`, so the policy check passes, the run ends
without error and step 1's job (hid 3) is still dispatched. -/
theorem step_failure_policy_counterexample :
    schedEarlyError 0 0 1 = DState.error ∧
    cfgEarlyError.ignore_errors = false ∧
    run_dm noTables schedEarlyError 10 cfgEarlyError =
      (⟨4, [2, 3], [], 0, [(0, 1), (0, 2), (1, 3)]⟩, Option.none) :=
  ⟨rfl, rfl, rfl⟩

/-- C4 (amended): the failure policy is keyed on the `failed_jobs` list of
the **final poll cycle** of the step's `wait`, not on the whole batch.  When
that list is non-empty and `--ignore_errors` is off, the run aborts with the
fatal policy error immediately after the step and no later step runs (in
particular nothing further is dispatched: the returned state is exactly the
state after this step); when `--ignore_errors` is on, the failure is absorbed
into the accumulators and the run continues with the next step. -/
theorem step_failure_policy (tables : String → Option DataTable)
    (sched : Nat → Nat → Nat → DState) (fuel : Nat) (ow : Bool) (genomes : PyVal)
    (si : Nat) (dm : DMConf) (rest : List (Nat × DMConf)) (st : RunSt)
    (herr : (processStep tables sched fuel ow genomes si dm st).err = Option.none)
    (hfl : (processStep tables sched fuel ow genomes si dm st).failed_jobs ≠ []) :
    processSteps tables sched fuel ow false genomes ((si, dm) :: rest) st =
      ((processStep tables sched fuel ow genomes si dm st).st,
        Option.some RunError.policyAbort) ∧
    processSteps tables sched fuel ow true genomes ((si, dm) :: rest) st =
      processSteps tables sched fuel ow true genomes rest
        { (processStep tables sched fuel ow genomes si dm st).st with
            all_finished :=
              (processStep tables sched fuel ow genomes si dm st).st.all_finished ++
                (processStep tables sched fuel ow genomes si dm st).finished_jobs,
            all_failed :=
              (processStep tables sched fuel ow genomes si dm st).st.all_failed ++
                (processStep tables sched fuel ow genomes si dm st).failed_jobs } := by
  cases ho : processStep tables sched fuel ow genomes si dm st with
  | mk st1 f fl err =>
    rw [ho] at herr
    simp only at herr
    subst herr
    have hfl' : fl ≠ [] := by rw [ho] at hfl; exact hfl
    have hempty : fl.isEmpty = false := by
      cases fl with
      | nil => exact absurd rfl hfl'
      | cons a t => rfl
    constructor
    · simp only [processSteps, ho]
      rw [if_pos (by simp [hempty])]
    · simp only [processSteps, ho]
      rw [if_neg (by simp)]

/-- C4 witness: one job errors in the final (only) poll cycle; with
`--ignore_errors` off the run aborts right after step 0 with the policy
error, the queued next step never dispatching. -/
theorem step_failure_policy_witness :
    processSteps noTables schedAllError 5 false false (PyVal.str "")
      [(0, dmSolo), (1, dmNext)] initSt =
      (⟨2, [], [], 0, [(0, 1)]⟩, Option.some RunError.policyAbort) :=
  (step_failure_policy noTables schedAllError 5 false (PyVal.str "") 0 dmSolo
    [(1, dmNext)] initSt rfl (by decide)).1

/-- Helper for C3: the item loop never touches the `all_finished_jobs` and
`all_failed_jobs` accumulators and only ever increments
`number_skipped_jobs`. -/
theorem processItems_state (tables : String → Option DataTable) (ow : Bool)
    (si : Nat) (dm : DMConf) :
    ∀ (items : List String) (st : RunSt) (job_list : List Nat),
      (processItems tables ow si dm items st job_list).1.all_finished =
        st.all_finished ∧
      (processItems tables ow si dm items st job_list).1.all_failed =
        st.all_failed ∧
      st.number_skipped_jobs ≤
        (processItems tables ow si dm items st job_list).1.number_skipped_jobs := by
  intro items
  induction items with
  | nil => intro st job_list; exact ⟨rfl, rfl, Nat.le_refl _⟩
  | cons item rest ih =>
    intro st job_list
    cases hb : buildInputs item dm.params [] with
    | error e => simp [processItems, hb]
    | ok inputs =>
      cases hc : input_entries_exist_in_data_tables tables dm.data_table_reload inputs with
      | error e => simp [processItems, hb, hc]
      | ok found =>
        by_cases hcond : (found && !ow) = true
        · simp only [processItems, hb, hc]
          rw [if_pos hcond]
          have H := ih { st with number_skipped_jobs := st.number_skipped_jobs + 1 }
            job_list
          exact ⟨H.1, H.2.1, Nat.le_trans (Nat.le_succ _) H.2.2⟩
        · simp only [processItems, hb, hc]
          rw [if_neg hcond]
          have H := ih
            { st with nextHid := st.nextHid + 1,
                      dispatched := st.dispatched ++ [(si, st.nextHid)] }
            (job_list ++ [st.nextHid])
          exact ⟨H.1, H.2.1, H.2.2⟩

/-- Helper for C3: one whole step preserves the two accumulators (they are
only extended by the step **loop**, after the policy check) and never
decreases the skip counter. -/
theorem processStep_state (tables : String → Option DataTable)
    (sched : Nat → Nat → Nat → DState) (fuel : Nat) (ow : Bool) (genomes : PyVal)
    (si : Nat) (dm : DMConf) (st : RunSt) :
    (processStep tables sched fuel ow genomes si dm st).st.all_finished =
      st.all_finished ∧
    (processStep tables sched fuel ow genomes si dm st).st.all_failed =
      st.all_failed ∧
    st.number_skipped_jobs ≤
      (processStep tables sched fuel ow genomes si dm st).st.number_skipped_jobs := by
  cases hp : parse_items (dm.items.getD (PyVal.list [PyVal.str ""])) genomes with
  | error e => simp [processStep, hp]
  | ok v =>
    cases v with
    | list items =>
      have h := processItems_state tables ow si dm (items.map pyStr) st []
      cases hq : processItems tables ow si dm (items.map pyStr) st [] with
      | mk st1 q =>
        cases q with
        | mk job_list err =>
          rw [hq] at h
          cases err with
          | some e =>
            simp only [processStep, hp, hq]
            exact ⟨h.1, h.2.1, h.2.2⟩
          | none =>
            cases hw : (wait (sched si) fuel job_list).result with
            | returned f fl =>
              simp only [processStep, hp, hq, hw]
              exact ⟨h.1, h.2.1, h.2.2⟩
            | nameError =>
              simp only [processStep, hp, hq, hw]
              exact ⟨h.1, h.2.1, h.2.2⟩
            | outOfFuel =>
              simp only [processStep, hp, hq, hw]
              exact ⟨h.1, h.2.1, h.2.2⟩
    | str s => simp [processStep, hp]
    | int n => simp [processStep, hp]
    | bool b => simp [processStep, hp]
    | null => simp [processStep, hp]
    | dict l => simp [processStep, hp]

/-- C3 (amended): the three summary components are monotonically
non-decreasing throughout any run — from any intermediate state, the state
after processing any remaining step list dominates it in `finished`, `failed`
and `skipped` counts.  (The claimed identity
`finished + failed + skipped = skipped + dispatched` does not hold: `wait`
both drops jobs classified in non-final poll cycles and counts errored jobs
in `finished_jobs` as well as `failed_jobs`.) -/
theorem run_summary_monotone (tables : String → Option DataTable)
    (sched : Nat → Nat → Nat → DState) (fuel : Nat) (ow ig : Bool)
    (genomes : PyVal) :
    ∀ (l : List (Nat × DMConf)) (st : RunSt),
      st.all_finished.length ≤
        ((processSteps tables sched fuel ow ig genomes l st).1).all_finished.length ∧
      st.all_failed.length ≤
        ((processSteps tables sched fuel ow ig genomes l st).1).all_failed.length ∧
      st.number_skipped_jobs ≤
        ((processSteps tables sched fuel ow ig genomes l st).1).number_skipped_jobs := by
  intro l
  induction l with
  | nil => intro st; exact ⟨Nat.le_refl _, Nat.le_refl _, Nat.le_refl _⟩
  | cons p rest ih =>
    obtain ⟨si, dm⟩ := p
    intro st
    have hs := processStep_state tables sched fuel ow genomes si dm st
    cases ho : processStep tables sched fuel ow genomes si dm st with
    | mk st1 f fl err =>
      rw [ho] at hs
      have h1 : st1.all_finished = st.all_finished := hs.1
      have h2 : st1.all_failed = st.all_failed := hs.2.1
      have h3 : st.number_skipped_jobs ≤ st1.number_skipped_jobs := hs.2.2
      cases err with
      | some e =>
        simp only [processSteps, ho]
        exact ⟨by rw [h1], by rw [h2], h3⟩
      | none =>
        by_cases hcond : (!fl.isEmpty && !ig) = true
        · simp only [processSteps, ho]
          rw [if_pos hcond]
          exact ⟨by rw [h1], by rw [h2], h3⟩
        · simp only [processSteps, ho]
          rw [if_neg hcond]
          have H := ih { st1 with all_finished := st1.all_finished ++ f,
                                  all_failed := st1.all_failed ++ fl }
          refine ⟨Nat.le_trans ?_ H.1, Nat.le_trans ?_ H.2.1, Nat.le_trans h3 H.2.2⟩
          · simp [List.length_append, h1]
          · simp [List.length_append, h2]

/-- One step whose single job fails, with `--ignore_errors` on so the run
completes "successfully". -/
def cfgIgnoreFailure : RunConfig := ⟨false, true, PyVal.str "", [dmSolo]⟩

/-- C3 (counterexample): a successful run (no error) that considered exactly
one job (0 skipped + 1 dispatched) but whose summary counts sum to 2: the
errored job sits in `all_finished_jobs` **and** `all_failed_jobs`, so
`finished + failed + skipped = 2 ≠ 1 = skipped + dispatched`. -/
theorem run_summary_counterexample :
    run_dm noTables schedAllError 10 cfgIgnoreFailure =
      (⟨2, [1], [1], 0, [(0, 1)]⟩, Option.none) ∧
    (job_summary ⟨2, [1], [1], 0, [(0, 1)]⟩).finished_jobs +
      (job_summary ⟨2, [1], [1], 0, [(0, 1)]⟩).failed_jobs +
      (job_summary ⟨2, [1], [1], 0, [(0, 1)]⟩).skipped_jobs = 2 ∧
    (⟨2, [1], [1], 0, [(0, 1)]⟩ : RunSt).number_skipped_jobs +
      (⟨2, [1], [1], 0, [(0, 1)]⟩ : RunSt).dispatched.length = 1 ∧
    (2 : Nat) ≠ 1 :=
  ⟨rfl, rfl, rfl, by decide⟩

end Ephemeris
